import Mathlib

/-!
Verification of the merchant document pipeline (Python sources under `src/`)
against its natural-language specification.

Shallow embedding conventions:
* Python `str` is `String`; character-level algorithms (`str.split`,
  `re.sub`, `strip`) are re-implemented over `List Char` exactly as CPython
  behaves on the inputs the program feeds them.
* Python `float` confidence scores are modelled as `ℚ` (the code only ever
  combines decimal literals with `max`/`min`/`-`).
* Exceptions are `Except String`; a collaborator call that may raise is a
  parameter of type `Except String _` (or a function returning one).
* `datetime.now()` and `random` values are explicit parameters, so stateful
  code becomes pure functions of those parameters.
-/

namespace MerchantPipeline

/-! ### Character/string utilities shared by the Python modules -/

/-- CPython `str.split(sep)` for a one-character separator, over `List Char`:
splits at every occurrence of `sep`, keeping empty pieces. -/
def pySplit (sep : Char) : List Char → List (List Char)
  | [] => [[]]
  | c :: cs =>
    let r := pySplit sep cs
    if c = sep then [] :: r
    else
      match r with
      | [] => [[c]]
      | h :: t => (c :: h) :: t

/-- Helper for `wordCount`: `inWord` records whether the previous character
belonged to a word (a maximal non-whitespace run). -/
def wcAux (inWord : Bool) : List Char → Nat
  | [] => 0
  | c :: cs =>
    if c.isWhitespace then wcAux false cs
    else (if inWord then 0 else 1) + wcAux true cs

/-- CPython `len(s.split())`: the number of maximal non-whitespace runs. -/
def wordCount (l : List Char) : Nat := wcAux false l

/-- CPython `str.strip()` over `List Char`: drop whitespace on both ends. -/
def trimList (l : List Char) : List Char :=
  ((l.dropWhile Char.isWhitespace).reverse.dropWhile Char.isWhitespace).reverse

/-- One step of `re.sub(r"\s+", " ", s)`: the accumulated output together
with a flag telling whether the previous character was whitespace (so a
whitespace run contributes a single space). -/
def collapseStep (acc : List Char × Bool) (c : Char) : List Char × Bool :=
  if c.isWhitespace then
    (if acc.2 then acc.1 else acc.1 ++ [' '], true)
  else
    (acc.1 ++ [c], false)

/-- Python `re.sub(r"\s+", " ", s)` over `List Char`. -/
def collapseWs (l : List Char) : List Char :=
  (l.foldl collapseStep ([], false)).1

/-- Python `re.sub(r"[^\d]", "", s)`: keep only digit characters. -/
def stripNonDigits (l : List Char) : List Char := l.filter Char.isDigit

/-! ### Data model (the dict shapes produced by `llm.py` / `validator.py`) -/

/-- The nested `address` dict of a candidate record. -/
structure Address where
  street : String
  city : String
  state : String
  zip : String
deriving Repr, DecidableEq

/-- The nested `contact_info` dict of a candidate record. -/
structure ContactInfo where
  phone : String
  email : String
deriving Repr, DecidableEq

/-- The nested `business_info` dict of a candidate record. -/
structure BusinessInfo where
  business_type : String
  annual_revenue : String
  years_in_business : String
  processing_volume : String
deriving Repr, DecidableEq

/-- The structured candidate record built by `LLMParser.parse_document`
(`llm.py`, lines 60-84). -/
structure CandidateRecord where
  merchant_name : String
  ein_or_ssn : String
  document_type : String
  requested_amount : String
  address : Address
  contact_info : ContactInfo
  business_info : BusinessInfo
  source_file : String
  confidence_score : ℚ
  flagged_issues : List String
deriving Repr, DecidableEq

/-- The record after `DocumentValidator.validate_document` added its keys
(`validator.py`, lines 62-65); the parent fields carry the updated
`flagged_issues` and `confidence_score`. -/
structure ValidatedRecord extends CandidateRecord where
  validation_status : String
  requires_human_review : Bool
  validation_timestamp : String
deriving Repr, DecidableEq

/-! ### `validator.py` -/

/-- Python `DocumentValidator._validate_ein_ssn`: strip non-digits, require exactly
9 characters, all digits. -/
def validate_ein_ssn (ein_ssn : String) : Bool :=
  if ein_ssn = "" then false
  else
    let clean := stripNonDigits ein_ssn.data
    clean.length == 9 && clean.all Char.isDigit

/-- Python `DocumentValidator._validate_zip`: strip non-digits, require exactly 5
characters, all digits. -/
def validate_zip (zip_code : String) : Bool :=
  if zip_code = "" then false
  else
    let clean := stripNonDigits zip_code.data
    clean.length == 5 && clean.all Char.isDigit

/-- Python `DocumentValidator._validate_amount`: empty is okay; otherwise keep only
digits and dots and require `float()` to accept the result, i.e. the cleaned
string is non-empty, holds at most one dot and at least one digit. -/
def validate_amount (amount : String) : Bool :=
  if amount = "" then true
  else
    let clean : List Char := amount.data.filter (fun c => c.isDigit || c = '.')
    if clean = [] then false
    else clean.count '.' ≤ 1 && clean.any Char.isDigit

/-- Python `DocumentValidator._validate_phone`: strip non-digits, require exactly 10
characters, all digits. -/
def validate_phone (phone : String) : Bool :=
  if phone = "" then false
  else
    let clean := stripNonDigits phone.data
    clean.length == 10 && clean.all Char.isDigit

/-- Character class `[a-zA-Z0-9._%+-]` of the email regex's local part. -/
def emailLocalChar (c : Char) : Bool :=
  c.isAlphanum || c = '.' || c = '_' || c = '%' || c = '+' || c = '-'

/-- Character class `[a-zA-Z0-9.-]` of the email regex's domain part. -/
def emailDomainChar (c : Char) : Bool :=
  c.isAlphanum || c = '.' || c = '-'

/-- ASCII letters, `[a-zA-Z]` in the regex. -/
def asciiAlpha (c : Char) : Bool := c.isAlpha

/-- Python `DocumentValidator._validate_email`: the stripped string must match
`^[a-zA-Z0-9._%+-]+@[a-zA-Z0-9.-]+\.[a-zA-Z]{2,}$`.  Such a match exists iff
the string has exactly one `@`, a non-empty local part in the local class,
and the domain decomposes as `d ++ "." ++ tld` where `tld` is the maximal
trailing alphabetic run (length ≥ 2) and `d` is non-empty in the domain
class (the character before the run must be the literal dot). -/
def validate_email (email : String) : Bool :=
  if email = "" then false
  else
    match pySplit '@' (trimList email.data) with
    | [lp, dp] =>
      let tld := (dp.reverse.takeWhile asciiAlpha).reverse
      let beforeTld := dp.take (dp.length - tld.length)
      !lp.isEmpty && lp.all emailLocalChar &&
        2 ≤ tld.length &&
        beforeTld.getLast? == some '.' &&
        !beforeTld.dropLast.isEmpty && beforeTld.dropLast.all emailDomainChar
    | _ => false

/-- The 50 state codes plus DC accepted by `_validate_state`. -/
def validStates : List String :=
  ["AL", "AK", "AZ", "AR", "CA", "CO", "CT", "DE", "FL", "GA",
   "HI", "ID", "IL", "IN", "IA", "KS", "KY", "LA", "ME", "MD",
   "MA", "MI", "MN", "MS", "MO", "MT", "NE", "NV", "NH", "NJ",
   "NM", "NY", "NC", "ND", "OH", "OK", "OR", "PA", "RI", "SC",
   "SD", "TN", "TX", "UT", "VT", "VA", "WA", "WV", "WI", "WY",
   "DC"]

/-- Python `DocumentValidator._validate_state`: uppercase, strip, membership in the
50 states + DC. -/
def validate_state (state : String) : Bool :=
  if state = "" then false
  else
    let up := trimList (state.data.map Char.toUpper)
    validStates.any (fun st => st.data == up)

/-- The `validation_issues` list accumulated by
`DocumentValidator.validate_document` (`validator.py`, lines 14-55), in
source order: EIN/SSN, ZIP, amount, phone, email, state, required fields,
address completeness. -/
def newIssues (r : CandidateRecord) : List String :=
  (if !validate_ein_ssn r.ein_or_ssn then
    ["Invalid EIN/SSN format: \x27" ++ r.ein_or_ssn ++ "\x27 (must be exactly 9 digits)"]
   else []) ++
  (if !validate_zip r.address.zip then
    ["Invalid ZIP code: \x27" ++ r.address.zip ++ "\x27 (must be exactly 5 digits)"]
   else []) ++
  (if r.requested_amount ≠ "" && !validate_amount r.requested_amount then
    ["Invalid requested amount: \x27" ++ r.requested_amount ++ "\x27 (must be numeric)"]
   else []) ++
  (if r.contact_info.phone ≠ "" && !validate_phone r.contact_info.phone then
    ["Invalid phone format: \x27" ++ r.contact_info.phone ++ "\x27 (must be 10 digits)"]
   else []) ++
  (if r.contact_info.email ≠ "" && !validate_email r.contact_info.email then
    ["Invalid email format: \x27" ++ r.contact_info.email ++ "\x27"]
   else []) ++
  (if r.address.state ≠ "" && !validate_state r.address.state then
    ["Invalid state: \x27" ++ r.address.state ++ "\x27 (must be 2-letter abbreviation)"]
   else []) ++
  (if trimList r.merchant_name.data = [] then ["Missing required field: merchant_name"] else []) ++
  (if trimList r.document_type.data = [] then ["Missing required field: document_type"] else []) ++
  (if (r.address.street ≠ "" || r.address.city ≠ "" || r.address.state ≠ "" || r.address.zip ≠ "") &&
      !(r.address.street ≠ "" && r.address.city ≠ "" && r.address.state ≠ "" && r.address.zip ≠ "") then
    ["Incomplete address information"]
   else [])

/-- Python `DocumentValidator.validate_document` (`validator.py`, lines 12-75):
merge new issues after the pre-existing ones, set status from the new
issues, set the review flag from all issues, apply the capped confidence
penalty.  `now` stands for `datetime.now().isoformat()`. -/
def validate_document (r : CandidateRecord) (now : String) : ValidatedRecord :=
  let vi := newIssues r
  let allIssues := r.flagged_issues ++ vi
  let conf : ℚ :=
    if vi = [] then r.confidence_score
    else max (r.confidence_score - min ((0.2 : ℚ) * vi.length) 0.4) 0.1
  { merchant_name := r.merchant_name
    ein_or_ssn := r.ein_or_ssn
    document_type := r.document_type
    requested_amount := r.requested_amount
    address := r.address
    contact_info := r.contact_info
    business_info := r.business_info
    source_file := r.source_file
    confidence_score := conf
    flagged_issues := allIssues
    validation_status := if vi = [] then "passed" else "failed"
    requires_human_review := decide (0 < allIssues.length)
    validation_timestamp := now }

/-! ### `llm.py` -/

/-- CPython `text.split("\n\n")`: left-to-right split on the two-character
blank-line separator, keeping empty pieces (`_chunk_text`, line 146). -/
def splitOnPara : List Char → List (List Char)
  | [] => [[]]
  | '\n' :: '\n' :: rest => [] :: splitOnPara rest
  | c :: rest =>
    match splitOnPara rest with
    | [] => [[c]]
    | h :: t => (c :: h) :: t

/-- The chunking loop of `LLMParser._chunk_text` (lines 148-162), written in
return style over paragraph blocks: `cur` is `current_chunk`, `curLen` is
`current_length` (the running sum of paragraph word counts), `m` is
`max_length`.  A block is flushed when the next paragraph would push the
running count over the budget; the trailing block is flushed only when
non-empty, exactly as the Python `if current_chunk:` guard. -/
def chunkBlocks (m : Nat) (cur : List (List Char)) (curLen : Nat) :
    List (List Char) → List (List (List Char))
  | [] => if cur.isEmpty then [] else [cur]
  | p :: ps =>
    let pl := wordCount p
    if m < curLen + pl then cur :: chunkBlocks m [p] pl ps
    else chunkBlocks m (cur ++ [p]) (curLen + pl) ps

/-- Python `LLMParser._chunk_text` (lines 143-164): paragraph split, budgeted
grouping, then `" ".join` of each block. -/
def chunk_text (text : String) (maxLength : Nat := 512) : List String :=
  (chunkBlocks maxLength [] 0 (splitOnPara text.data)).map
    (fun b => ⟨List.intercalate [' '] b⟩)

/-- Python `LLMParser._get_field_prompt` (lines 166-191): the prompt template per
field key, with the chunk text appended; unknown keys fall back to the
generic template with underscores replaced by spaces. -/
def field_prompt (field text : String) : String :=
  if field = "merchant_name" then
    "Extract the merchant or business name from this text: " ++ text
  else if field = "ein_or_ssn" then
    "Find the tax ID, EIN number, or SSN from this text: " ++ text
  else if field = "document_type" then
    "What type of document is this (application, statement, invoice, etc.): " ++ text
  else if field = "requested_amount" then
    "Extract the requested loan or funding amount from this text: " ++ text
  else if field = "address_street" then
    "Extract only the street address (no city/state/zip) from this text: " ++ text
  else if field = "address_city" then
    "Extract only the city name from this address information: " ++ text
  else if field = "address_state" then
    "Extract only the state (2-letter abbreviation preferred) from this address: " ++ text
  else if field = "address_zip" then
    "Extract only the ZIP code from this address: " ++ text
  else if field = "contact_phone" then
    "Find the phone number from this text: " ++ text
  else if field = "contact_email" then
    "Find the email address from this text: " ++ text
  else if field = "business_type" then
    "What type of business is described in this text: " ++ text
  else if field = "annual_revenue" then
    "Extract the annual revenue amount from this text: " ++ text
  else if field = "years_in_business" then
    "How many years has this business been operating according to the text: " ++ text
  else if field = "processing_volume" then
    "Find the credit card processing volume from this text: " ++ text
  else
    "Extract the " ++ ⟨field.data.map (fun c => if c = '_' then ' ' else c)⟩ ++
      " from this text: " ++ text

/-- List-level body of `LLMParser._clean_response` (lines 193-203): when a
colon occurs, keep only `text.split(":")[-1]` (the segment after the LAST
colon), then `strip()` and collapse whitespace runs. -/
def clean_list (l : List Char) : List Char :=
  let t := if (':') ∈ l then (pySplit ':' l).getLastD l else l
  collapseWs (trimList t)

/-- Python `LLMParser._clean_response`. -/
def clean_response (s : String) : String := ⟨clean_list s.data⟩

/-- One field iteration of `LLMParser.parse_document` (e.g. lines 91-101):
build the prompt over the chunk, call the generator (`self.generator`; its
`Except.error` models a raised exception, which the surrounding `try` of
`parse_document` re-raises), then post-process.  The Python code stores
`_clean_response` of the first response item when the response is a
non-empty list, and the empty string otherwise; the two response shapes
(`dict` with `generated_text`, or anything `str()`-able) receive identical
treatment, so a response item is modelled as the string it contributes. -/
def extract_field (gen : String → Except String (List String))
    (key chunk : String) : Except String String := do
  let resp ← gen (field_prompt key chunk)
  match resp with
  | [] => pure ""
  | x :: _ => pure (clean_response x)

/-- Python `LLMParser.parse_document` (lines 44-141): chunk the text, then fill
the 14 fields one at a time from prompts over `chunks[0]`; the initial
`document_type = "application"` default is overwritten by the field loop
like every other direct field.  Any generator exception propagates (the
`except` clause at lines 139-141 re-raises). -/
def parse_document (gen : String → Except String (List String))
    (text : String) (filename : Option String) : Except String CandidateRecord := do
  let chunks := chunk_text text 512
  let chunk0 := chunks.headD ""
  let mn ← extract_field gen "merchant_name" chunk0
  let ein ← extract_field gen "ein_or_ssn" chunk0
  let dt ← extract_field gen "document_type" chunk0
  let ra ← extract_field gen "requested_amount" chunk0
  let street ← extract_field gen "address_street" chunk0
  let city ← extract_field gen "address_city" chunk0
  let st ← extract_field gen "address_state" chunk0
  let zp ← extract_field gen "address_zip" chunk0
  let ph ← extract_field gen "contact_phone" chunk0
  let em ← extract_field gen "contact_email" chunk0
  let bt ← extract_field gen "business_type" chunk0
  let ar ← extract_field gen "annual_revenue" chunk0
  let yib ← extract_field gen "years_in_business" chunk0
  let pv ← extract_field gen "processing_volume" chunk0
  pure ⟨mn, ein, dt, ra, ⟨street, city, st, zp⟩, ⟨ph, em⟩, ⟨bt, ar, yib, pv⟩,
        filename.getD "unknown", 0.7, []⟩

/-! ### `crm_submit.py` -/

/-- The dict returned by `CRMSubmitter._mock_crm_submit`: one of four
shapes, all carrying a `status` string; absent keys are `none`. -/
structure CrmResponse where
  status : String
  reason : Option String
  crm_id : Option String
  timestamp : Option String
  submission_time : Option String
  processing_notes : Option String
  retry_suggested : Option Bool
deriving Repr, DecidableEq

/-- Python `CRMSubmitter._mock_crm_submit` (lines 140-182).  `now` stands for
`datetime.now().isoformat()`, `randId` for the digits of
`random.randint(...)`, and `r` for the `random.random()` draw of the
"90% success" branch. -/
def mock_crm_submit (d : ValidatedRecord) (now randId : String) (r : ℚ) : CrmResponse :=
  if d.validation_status = "failed" then
    ⟨"rejected", some "Document failed validation checks", none, some now, none, none, none⟩
  else if d.confidence_score < 0.3 then
    ⟨"pending_review", some "Low confidence score requires manual review",
     some ("PENDING-" ++ randId), some now, none, none, none⟩
  else if r < 0.9 then
    ⟨"accepted", none, some ("CRM-" ++ randId), none, some now,
     some "Document successfully processed and entered into CRM", none⟩
  else
    ⟨"failed", some "CRM system temporarily unavailable", none, some now, none, none, some true⟩

/-- The dict returned by `CRMSubmitter.submit_document`: either the
`status: success` shape with the JSON filename and the CRM response, or the
`status: failed` shape with the error message. -/
structure SubmissionResult where
  status : String
  json_file : Option String
  crm_response : Option CrmResponse
  error : Option String
deriving Repr, DecidableEq

/-- Python `os.path.splitext(s)[0]` for a basename: everything before the last dot,
where leading dots do not count as an extension separator. -/
def splitextBase (l : List Char) : List Char :=
  let lead := l.takeWhile (fun c => c = '.')
  let rest := l.drop lead.length
  if ('.') ∈ rest then
    lead ++ rest.take (rest.length - (rest.reverse.takeWhile (fun c => c ≠ '.')).length - 1)
  else l

/-- The filename built by `CRMSubmitter._generate_json_file` (line 98). -/
def json_file_name (d : ValidatedRecord) (ts : String) : String :=
  ⟨splitextBase d.source_file.data⟩ ++ "_processed_" ++ ts ++ ".json"

/-- Python `CRMSubmitter.submit_document` (lines 19-44): the whole body sits in a
`try` whose handler returns the `status: failed` dict, so the function never
raises.  `jsonExc` models the only fallible step, `_generate_json_file`
(file I/O); `_log_submission` swallows its own errors and has no effect on
the return value. -/
def submit_document (d : ValidatedRecord) (now randId : String) (r : ℚ)
    (jsonExc : Option String) : SubmissionResult :=
  match jsonExc with
  | some e => ⟨"failed", none, none, some e⟩
  | none => ⟨"success", some (json_file_name d now), some (mock_crm_submit d now randId r), none⟩

/-! ### `pipeline.py` -/

/-- The per-file collaborator outcomes a `DocumentPipeline` run observes:
the OCR result for this file (`Except.error` models a raised exception),
the LLM generator, the timestamps/durations the `datetime.now()` calls
produce, and the CRM collaborator draws. -/
structure FileJob where
  filename : String
  ocr : Except String String
  gen : String → Except String (List String)
  nowTs : String
  elapsed : ℚ
  valNow : String
  crmNow : String
  crmRandId : String
  crmRand : ℚ
  crmJsonExc : Option String

/-- Result type `DocumentResult`: the two shapes assembled by
`DocumentPipeline.process_single_document` (lines 110-115 and 124-130). -/
inductive DocumentResult where
  | completed (record : ValidatedRecord) (submission : SubmissionResult)
      (processing_time_seconds : ℚ)
  | failed (source_file error processing_timestamp : String)
      (processing_time_seconds : ℚ)
deriving Repr, DecidableEq

/-- The `try` body of `process_single_document` (lines 89-118): OCR, the
empty-text guard, LLM parsing, validation, CRM submission.  Validation and
submission are total in the source (`validate_document` is pure;
`submit_document` catches every exception internally), so the OCR call, the
empty-text guard and the generator calls inside `parse_document` are the
only error sources. -/
def run_stages (j : FileJob) : Except String (ValidatedRecord × SubmissionResult) := do
  let text ← j.ocr
  if trimList text.data = [] then
    throw "No text could be extracted from document"
  let parsed ← parse_document j.gen text (some j.filename)
  let validated := validate_document parsed j.valNow
  let submission := submit_document validated j.crmNow j.crmRandId j.crmRand j.crmJsonExc
  pure (validated, submission)

/-- Python `DocumentPipeline.process_single_document` (lines 82-130): the
`except Exception` handler converts any stage error into the
`processing_status: failed` result carrying the message, the failure
timestamp and the elapsed seconds. -/
def process_single_document (j : FileJob) : DocumentResult :=
  match run_stages j with
  | .ok (v, s) => .completed v s j.elapsed
  | .error e => .failed j.filename e j.nowTs j.elapsed

/-- The `for i, file_path in enumerate(files)` loop of
`DocumentPipeline.process_directory` (lines 55-71): `n` is `len(files)`,
`i` the running index.  Returns the accumulated results and the
`progress_callback(i, len(files), message)` invocations in call order. -/
def dirLoop (n : Nat) : Nat → List FileJob → List DocumentResult × List (Nat × Nat × String)
  | _, [] => ([], [])
  | i, j :: rest =>
    let res := process_single_document j
    let next := dirLoop n (i + 1) rest
    (res :: next.1, (i, n, "Processing " ++ j.filename) :: next.2)

/-- Python `DocumentPipeline.process_directory` (lines 35-80) from the point where
the supported files have been discovered, returning every per-document
result together with the progress-callback invocations.  The per-iteration
`try` never fires in this model because `process_single_document` already
catches every stage error and the callback is treated as pure. -/
def process_directory (jobs : List FileJob) : List DocumentResult × List (Nat × Nat × String) :=
  dirLoop jobs.length 0 jobs

/-! ### Concrete fixtures used by counterexamples and witnesses -/

/-- The §8 test-vector record of claim C4: `einOrSsn="12345"`,
`zip="1234"`, `state="ZZ"`, empty `merchantName` and `documentType`, the
remaining fields empty, extractor-default confidence 0.7. -/
def c4rec : CandidateRecord :=
  ⟨"", "12345", "", "", ⟨"", "", "ZZ", "1234"⟩, ⟨"", ""⟩, ⟨"", "", "", ""⟩,
   "doc.pdf", 0.7, []⟩

/-- A record every validation rule accepts, but carrying one pre-existing
extraction-stage issue. -/
def recPrior : CandidateRecord :=
  ⟨"Acme", "123-45-6789", "application", "", ⟨"1 Main", "Boston", "MA", "02134"⟩,
   ⟨"", ""⟩, ⟨"", "", "", ""⟩, "doc.pdf", 0.7, ["prior extraction issue"]⟩

/-- A validated record with `validation_status = "failed"` (the C4 vector
after validation). -/
def valFailed : ValidatedRecord := validate_document c4rec "2024-01-01T00:00:00"

/-- A generator whose every call succeeds with one response item. -/
def genOk : String → Except String (List String) := fun _ => Except.ok ["Acme Corp"]

/-- A generator whose every call raises (backend unreachable). -/
def genDown : String → Except String (List String) := fun _ => Except.error "backend unreachable"

/-- A generator that raises on exactly one of the 14 field prompts (the
`ein_or_ssn` prompt over the chunk of `"doc text"`) and succeeds on every
other prompt. -/
def genBoom : String → Except String (List String) := fun p =>
  if p = field_prompt "ein_or_ssn" "doc text" then Except.error "boom"
  else Except.ok ["v"]

/-- A file job whose every collaborator call succeeds. -/
def jobOk : FileJob :=
  ⟨"a.pdf", Except.ok "some text", genOk, "t0", 1, "tv", "tc", "42", 0, none⟩

/-- A file job whose OCR call raises. -/
def jobFail : FileJob :=
  ⟨"b.pdf", Except.error "OCR exploded", genOk, "t0", 2, "tv", "tc", "42", 0, none⟩

/-- Modelled from the spec (claim C9 wording): strip a leading label echo by
splitting on the FIRST colon and keeping the remainder, then collapse
whitespace and trim.  This is the comparison definition for the refinement
claim; the source keeps the LAST segment instead. -/
def clean_response_spec_first (s : String) : String :=
  let t := if (':') ∈ s.data then (s.data.dropWhile (fun c => c ≠ ':')).drop 1 else s.data
  ⟨collapseWs (trimList t)⟩

/-! ### Helper lemmas -/

theorem except_ok_bind {α β : Type} (a : α) (k : α → Except String β) :
    (Except.ok a >>= k) = k a := rfl

theorem except_error_bind {α β : Type} (e : String) (k : α → Except String β) :
    ((Except.error e : Except String α) >>= k) = Except.error e := rfl

theorem extract_field_ok (gen : String → Except String (List String))
    (h : ∀ p, ∃ l, gen p = Except.ok l) (key chunk : String) :
    ∃ v, extract_field gen key chunk = Except.ok v := by
  obtain ⟨l, hl⟩ := h (field_prompt key chunk)
  cases l with
  | nil =>
    refine ⟨"", ?_⟩
    simp only [extract_field, hl, except_ok_bind]
    rfl
  | cons x xs =>
    refine ⟨clean_response x, ?_⟩
    simp only [extract_field, hl, except_ok_bind]
    rfl

theorem pySplit_ne_nil (sep : Char) : ∀ l : List Char, pySplit sep l ≠ []
  | [] => by simp [pySplit]
  | c :: cs => by
    simp only [pySplit]
    by_cases h : c = sep
    · simp [h]
    · simp only [if_neg h]
      cases pySplit sep cs <;> simp

theorem pySplit_no_sep (sep : Char) : ∀ l : List Char, sep ∉ l → pySplit sep l = [l]
  | [] => fun _ => rfl
  | c :: cs => fun h => by
    have hc : ¬ c = sep := fun e => h (by simp [e])
    have hcs : sep ∉ cs := fun m => h (List.mem_cons_of_mem c m)
    simp only [pySplit, if_neg hc, pySplit_no_sep sep cs hcs]

theorem pySplit_len2 (sep : Char) : ∀ l : List Char, sep ∈ l → 2 ≤ (pySplit sep l).length
  | [] => fun h => absurd h (List.not_mem_nil sep)
  | c :: cs => fun h => by
    by_cases hc : c = sep
    · simp only [pySplit, if_pos hc, List.length_cons]
      have h1 : 0 < (pySplit sep cs).length := List.length_pos.mpr (pySplit_ne_nil sep cs)
      omega
    · have hcs : sep ∈ cs := by
        rcases List.mem_cons.mp h with h1 | h1
        · exact absurd h1.symm hc
        · exact h1
      have ih := pySplit_len2 sep cs hcs
      simp only [pySplit, if_neg hc]
      cases hr : pySplit sep cs with
      | nil => exact absurd hr (pySplit_ne_nil sep cs)
      | cons x t =>
        rw [hr] at ih
        simpa using ih

theorem pySplit_getLastD_append (sep : Char) (b : List Char) (hb : sep ∉ b) :
    ∀ (a d : List Char), (pySplit sep (a ++ sep :: b)).getLastD d = b
  | [], d => by
    simp only [List.nil_append, pySplit, if_pos rfl, pySplit_no_sep sep b hb,
      List.getLastD_cons]
    rfl
  | c :: a, d => by
    by_cases hc : c = sep
    · simp only [List.cons_append, pySplit, if_pos hc, List.getLastD_cons]
      exact pySplit_getLastD_append sep b hb a []
    · have ih := pySplit_getLastD_append sep b hb a d
      have hlen : 2 ≤ (pySplit sep (a ++ sep :: b)).length :=
        pySplit_len2 sep _ (by simp)
      simp only [List.cons_append, pySplit, if_neg hc]
      cases hr : pySplit sep (a ++ sep :: b) with
      | nil => exact absurd hr (pySplit_ne_nil sep _)
      | cons x t =>
        rw [hr] at ih hlen
        cases t with
        | nil => simp at hlen
        | cons y t2 =>
          simp only [List.getLastD_cons] at ih ⊢
          exact ih

theorem dirLoop_results (n : Nat) :
    ∀ (i : Nat) (jobs : List FileJob),
      (dirLoop n i jobs).1 = jobs.map process_single_document := by
  intro i jobs
  induction jobs generalizing i with
  | nil => rfl
  | cons j rest ih => simp [dirLoop, ih]

theorem dirLoop_progress_firsts (n : Nat) :
    ∀ (jobs : List FileJob) (i : Nat),
      (dirLoop n i jobs).2.map (fun c => c.1) = List.range' i jobs.length := by
  intro jobs
  induction jobs with
  | nil => intro i; rfl
  | cons j rest ih => intro i; simp [dirLoop, List.range', ih]

theorem dirLoop_progress_total (n : Nat) :
    ∀ (jobs : List FileJob) (i : Nat),
      ∀ c ∈ (dirLoop n i jobs).2, c.2.1 = n := by
  intro jobs
  induction jobs with
  | nil => intro i c hc; simp [dirLoop] at hc
  | cons j rest ih =>
    intro i c hc
    simp only [dirLoop, List.mem_cons] at hc
    rcases hc with h | h
    · rw [h]
    · exact ih (i + 1) c h

theorem chunkBlocks_flatten (m : Nat) :
    ∀ (ps cur : List (List Char)) (curLen : Nat),
      (chunkBlocks m cur curLen ps).flatten = cur ++ ps
  | [], cur, curLen => by
    simp only [chunkBlocks]
    split
    · simp_all [List.isEmpty_iff]
    · simp
  | p :: ps, cur, curLen => by
    simp only [chunkBlocks]
    split
    · simp [chunkBlocks_flatten m ps [p] (wordCount p)]
    · simp [chunkBlocks_flatten m ps (cur ++ [p]) (curLen + wordCount p)]

theorem chunkBlocks_budget (m : Nat) :
    ∀ (ps cur : List (List Char)) (curLen : Nat),
      curLen = (cur.map wordCount).sum →
      (2 ≤ cur.length → curLen ≤ m) →
      ∀ b ∈ chunkBlocks m cur curLen ps, 2 ≤ b.length → (b.map wordCount).sum ≤ m
  | [], cur, curLen => fun hsum hbound b hb hlen => by
    simp only [chunkBlocks] at hb
    split at hb
    · simp at hb
    · simp only [List.mem_singleton] at hb
      subst hb
      rw [← hsum]
      exact hbound hlen
  | p :: ps, cur, curLen => fun hsum hbound b hb hlen => by
    simp only [chunkBlocks] at hb
    split at hb
    · rcases List.mem_cons.mp hb with rfl | hb2
      · rw [← hsum]; exact hbound hlen
      · refine chunkBlocks_budget m ps [p] (wordCount p) (by simp) ?_ b hb2 hlen
        intro h2
        simp at h2
    · refine chunkBlocks_budget m ps (cur ++ [p]) (curLen + wordCount p) ?_ ?_ b hb hlen
      · simp [hsum]
      · intro _
        omega

theorem chunkBlocks_cur_mem (m : Nat) (cur : List (List Char)) (curLen : Nat)
    (ps : List (List Char)) (h1 : cur ≠ []) (h2 : m < curLen) :
    cur ∈ chunkBlocks m cur curLen ps := by
  cases ps with
  | nil =>
    simp only [chunkBlocks]
    rw [if_neg (by simpa [List.isEmpty_iff] using h1)]
    exact List.mem_singleton_self cur
  | cons p ps =>
    simp only [chunkBlocks]
    rw [if_pos (by omega)]
    exact List.mem_cons_self cur _

theorem chunkBlocks_oversized (m : Nat) :
    ∀ (ps cur : List (List Char)) (curLen : Nat) (p : List Char),
      p ∈ ps → m < wordCount p → [p] ∈ chunkBlocks m cur curLen ps
  | [], cur, curLen => fun p hp _ => absurd hp (List.not_mem_nil p)
  | q :: ps, cur, curLen => fun p hp hw => by
    rcases List.mem_cons.mp hp with rfl | hp2
    · simp only [chunkBlocks]
      rw [if_pos (by omega)]
      exact List.mem_cons_of_mem _ (chunkBlocks_cur_mem m [p] (wordCount p) ps (by simp) hw)
    · simp only [chunkBlocks]
      split
      · exact List.mem_cons_of_mem _ (chunkBlocks_oversized m ps [q] (wordCount q) p hp2 hw)
      · exact chunkBlocks_oversized m ps (cur ++ [q]) (curLen + wordCount q) p hp2 hw

/-! ### Claim theorems: validation engine -/

/-- C2 counterexample: on a record that passes every rule but carries a
pre-existing extraction-stage issue, `validate_document` returns
`validation_status = "passed"` while the post-validation `flagged_issues`
list is non-empty (and the review flag is set) — refuting the claimed
"failed iff flaggedIssues non-empty" invariant. -/
theorem validation_status_mixed_counterexample :
    (validate_document recPrior "2024-01-01T00:00:00").validation_status = "passed" ∧
    (validate_document recPrior "2024-01-01T00:00:00").flagged_issues ≠ [] ∧
    (validate_document recPrior "2024-01-01T00:00:00").requires_human_review = true := by
  have h : newIssues recPrior = [] := by decide
  have hf : recPrior.flagged_issues = ["prior extraction issue"] := rfl
  refine ⟨?_, ?_, ?_⟩ <;> simp [validate_document, h, hf]

/-- C2 amended: `validationStatus = "failed"` iff the validation pass raised
at least one NEW issue (pre-existing issues do not affect the status);
`flaggedIssues` after validation is the pre-existing list followed by the
new issues; `requiresHumanReview` is true iff the merged list is
non-empty. -/
theorem validation_status_invariant_amended (r : CandidateRecord) (now : String) :
    ((validate_document r now).validation_status = "failed" ↔ newIssues r ≠ []) ∧
    ((validate_document r now).validation_status = "passed" ↔ newIssues r = []) ∧
    ((validate_document r now).flagged_issues = r.flagged_issues ++ newIssues r) ∧
    ((validate_document r now).requires_human_review = true ↔
      (validate_document r now).flagged_issues ≠ []) := by
  by_cases h : newIssues r = [] <;>
    simp [validate_document, h, List.length_pos]

/-- C4 counterexample: the §8 test vector raises six issues, not the
claimed five — the address-completeness rule also fires, because `state`
and `zip` are non-empty while `street` and `city` are empty. -/
theorem five_issue_counterexample :
    (newIssues c4rec).length = 6 ∧ (newIssues c4rec).length ≠ 5 := by
  exact ⟨by decide, by decide⟩

/-- C4 amended: the vector raises exactly six issues — the five claimed
ones in rule-table order followed by "Incomplete address information" —
and the confidence drops by `min(0.2*6, 0.4) = 0.4` from its input 0.7,
to 0.3 (the 0.1 floor not reached). -/
theorem five_issue_vector_amended :
    newIssues c4rec =
      ["Invalid EIN/SSN format: \x2712345\x27 (must be exactly 9 digits)",
       "Invalid ZIP code: \x271234\x27 (must be exactly 5 digits)",
       "Invalid state: \x27ZZ\x27 (must be 2-letter abbreviation)",
       "Missing required field: merchant_name",
       "Missing required field: document_type",
       "Incomplete address information"] ∧
    (validate_document c4rec "2024-01-01T00:00:00").confidence_score = 0.7 - 0.4 ∧
    (validate_document c4rec "2024-01-01T00:00:00").confidence_score =
      max (0.7 - min ((0.2 : ℚ) * 6) 0.4) 0.1 := by
  have h : newIssues c4rec ≠ [] := by decide
  have h6 : (newIssues c4rec).length = 6 := by decide
  refine ⟨by decide, ?_, ?_⟩ <;>
    · simp only [validate_document, if_neg h, h6]
      norm_num [c4rec]

/-- C6: when the pass raises `k ≥ 1` new issues the returned confidence is
exactly `max(conf - min(0.2*k, 0.4), 0.1)`; a pass never cuts confidence by
more than 0.4; a pass that raises an issue never leaves confidence below
0.1; zero new issues leave the confidence untouched. -/
theorem confidence_penalty_formula (r : CandidateRecord) (now : String) :
    ((newIssues r).length = 0 →
      (validate_document r now).confidence_score = r.confidence_score) ∧
    (1 ≤ (newIssues r).length →
      (validate_document r now).confidence_score =
        max (r.confidence_score - min ((0.2 : ℚ) * (newIssues r).length) 0.4) 0.1) ∧
    (r.confidence_score - (validate_document r now).confidence_score ≤ 0.4) ∧
    (1 ≤ (newIssues r).length →
      (0.1 : ℚ) ≤ (validate_document r now).confidence_score) := by
  by_cases h : newIssues r = []
  · refine ⟨fun _ => ?_, fun h1 => ?_, ?_, fun h1 => ?_⟩
    · simp [validate_document, h]
    · rw [h] at h1; simp at h1
    · simp only [validate_document, h, if_pos, sub_self]
      norm_num
    · rw [h] at h1; simp at h1
  · have hlen : 1 ≤ (newIssues r).length := List.length_pos.mpr h
    refine ⟨fun h0 => absurd (List.length_eq_zero.mp h0) h, fun _ => ?_, ?_, fun _ => ?_⟩
    · simp [validate_document, h]
    · simp only [validate_document, if_neg h]
      have h1 : min ((0.2 : ℚ) * (newIssues r).length) 0.4 ≤ 0.4 := min_le_right _ _
      have h2 : r.confidence_score - min ((0.2 : ℚ) * (newIssues r).length) 0.4 ≤
          max (r.confidence_score - min ((0.2 : ℚ) * (newIssues r).length) 0.4) 0.1 :=
        le_max_left _ _
      linarith
    · simp only [validate_document, if_neg h]
      exact le_max_right _ _

/-- C6 witness: the penalty formula evaluated on the six-issue vector. -/
theorem confidence_penalty_formula_witness :
    (validate_document c4rec "2024-01-01T00:00:00").confidence_score =
      max (c4rec.confidence_score - min ((0.2 : ℚ) * (newIssues c4rec).length) 0.4) 0.1 :=
  (confidence_penalty_formula c4rec "2024-01-01T00:00:00").2.1 (by decide)

/-- C10: `validate_document` is deterministic in the claimed observables —
two calls on equal copies of a record produce identical `flagged_issues`
(same elements, same order) and identical `confidence_score`, whatever the
wall-clock timestamps of the two calls are. -/
theorem validate_document_deterministic (r₁ r₂ : CandidateRecord) (t₁ t₂ : String)
    (h : r₁ = r₂) :
    (validate_document r₁ t₁).flagged_issues = (validate_document r₂ t₂).flagged_issues ∧
    (validate_document r₁ t₁).confidence_score = (validate_document r₂ t₂).confidence_score := by
  subst h
  exact ⟨rfl, rfl⟩

/-- C10 witness: determinism instantiated on the prior-issue record with two
different call timestamps. -/
theorem validate_document_deterministic_witness :
    (validate_document recPrior "2024-01-01T00:00:00").flagged_issues =
      (validate_document recPrior "2025-06-30T12:00:00").flagged_issues ∧
    (validate_document recPrior "2024-01-01T00:00:00").confidence_score =
      (validate_document recPrior "2025-06-30T12:00:00").confidence_score :=
  validate_document_deterministic recPrior recPrior "2024-01-01T00:00:00"
    "2025-06-30T12:00:00" rfl

/-! ### Claim theorems: orchestrator -/

/-- C1: the batch produces exactly one `DocumentResult` per input file —
the result list is the per-file map of `process_single_document`, so a
failure in one document never aborts the batch and no exception reaches the
batch caller (both functions are total); any stage error `e` of a document
is converted into a `processing_status = failed` result carrying the error
message and the elapsed processing time, and a fully successful document
yields the `completed` result. -/
theorem pipeline_failure_containment (jobs : List FileJob) :
    ((process_directory jobs).1 = jobs.map process_single_document) ∧
    ((process_directory jobs).1.length = jobs.length) ∧
    (∀ (j : FileJob) (e : String), run_stages j = Except.error e →
      process_single_document j = DocumentResult.failed j.filename e j.nowTs j.elapsed) ∧
    (∀ (j : FileJob) (v : ValidatedRecord) (s : SubmissionResult),
      run_stages j = Except.ok (v, s) →
      process_single_document j = DocumentResult.completed v s j.elapsed) := by
  refine ⟨dirLoop_results jobs.length 0 jobs, ?_, ?_, ?_⟩
  · rw [show (process_directory jobs).1 = jobs.map process_single_document from
      dirLoop_results jobs.length 0 jobs]
    exact List.length_map _ _
  · intro j e he; simp [process_single_document, he]
  · intro j v s hs; simp [process_single_document, hs]

/-- C1 witness: a batch of one successful and one OCR-failing job returns
two results, and the failing job is converted to the failed result with its
message and elapsed time. -/
theorem pipeline_failure_containment_witness :
    (process_directory [jobOk, jobFail]).1.length = 2 ∧
    process_single_document jobFail =
      DocumentResult.failed "b.pdf" "OCR exploded" "t0" 2 := by
  refine ⟨(pipeline_failure_containment [jobOk, jobFail]).2.1, ?_⟩
  exact (pipeline_failure_containment [jobOk, jobFail]).2.2.1 jobFail "OCR exploded" rfl

/-- C5 counterexample: over three files the progress callback is invoked
three times with first arguments 0, 1, 2 — the final call reports 2, not
`total = 3` as the claim states (the callback fires before each document,
when only `i` documents have completed). -/
theorem progress_final_counterexample :
    ((process_directory [jobOk, jobFail, jobOk]).2.map (fun c => c.1) = [0, 1, 2]) ∧
    (((process_directory [jobOk, jobFail, jobOk]).2.map (fun c => c.1)).getLastD 0 = 2) ∧
    ((2 : Nat) ≠ 3) := by
  exact ⟨rfl, rfl, by decide⟩

/-- C5 amended: over `n` input files the callback is invoked exactly `n`
times, once when starting each document, with strictly increasing
`completedSoFar` arguments `0, 1, …, n-1` (the count of already-completed
documents at each start); every call carries `total = n`, and the final
call reports `n - 1`, not `n`. -/
theorem progress_reporting_amended (jobs : List FileJob) :
    ((process_directory jobs).2.length = jobs.length) ∧
    ((process_directory jobs).2.map (fun c => c.1) = List.range jobs.length) ∧
    (((process_directory jobs).2.map (fun c => c.1)).Pairwise (· < ·)) ∧
    (∀ c ∈ (process_directory jobs).2, c.2.1 = jobs.length) ∧
    (jobs ≠ [] →
      ((process_directory jobs).2.map (fun c => c.1)).getLastD 0 = jobs.length - 1) := by
  have hfst : (process_directory jobs).2.map (fun c => c.1) = List.range jobs.length := by
    rw [process_directory, dirLoop_progress_firsts, List.range_eq_range']
  refine ⟨?_, hfst, ?_, dirLoop_progress_total jobs.length jobs 0, ?_⟩
  · have := congrArg List.length hfst
    simpa using this
  · rw [hfst]; exact List.pairwise_lt_range _
  · intro hne
    rw [hfst]
    rcases Nat.exists_eq_succ_of_ne_zero (fun h0 => hne (List.length_eq_zero.mp h0)) with ⟨k, hk⟩
    rw [hk, List.range_succ, List.getLastD_concat]
    omega

/-- C5 amended witness: the three-file batch instantiation. -/
theorem progress_reporting_amended_witness :
    (∀ c ∈ (process_directory [jobOk, jobFail, jobOk]).2, c.2.1 = 3) ∧
    ((process_directory [jobOk, jobFail, jobOk]).2.map (fun c => c.1)).getLastD 0 = 2 :=
  ⟨(progress_reporting_amended [jobOk, jobFail, jobOk]).2.2.2.1,
   (progress_reporting_amended [jobOk, jobFail, jobOk]).2.2.2.2 (by simp)⟩

/-! ### Claim theorems: field extractor -/

/-- C3 counterexample: `genBoom` succeeds on every field prompt except the
`ein_or_ssn` one (shown here succeeding on the `merchant_name` prompt), yet
`parse_document` aborts the whole record with that single field failure
instead of recording the field as an empty string — the `except` clause of
`parse_document` re-raises, refuting "a single field failure never aborts
the whole record". -/
theorem single_field_failure_counterexample :
    genBoom (field_prompt "merchant_name" "doc text") = Except.ok ["v"] ∧
    parse_document genBoom "doc text" (some "doc.pdf") = Except.error "boom" :=
  ⟨rfl, rfl⟩

/-- C3 amended: extraction degrades gracefully only for completions that
RETURN an empty/blank result — such a field is recorded as the empty string
and the record stays complete; extraction succeeds whenever every field
call returns, and it fails when the backend is unreachable for every field;
but any exception raised by a single field call propagates and aborts the
whole record (see the counterexample). -/
theorem extraction_degradation_amended (gen : String → Except String (List String))
    (text : String) (f : Option String) :
    ((∀ p, ∃ l, gen p = Except.ok l) → ∃ r, parse_document gen text f = Except.ok r) ∧
    (∀ e : String, (∀ p, gen p = Except.error e) →
      parse_document gen text f = Except.error e) ∧
    (parse_document (fun _ => Except.ok []) text f =
      Except.ok ⟨"", "", "", "", ⟨"", "", "", ""⟩, ⟨"", ""⟩, ⟨"", "", "", ""⟩,
        f.getD "unknown", 0.7, []⟩) := by
  refine ⟨fun hgen => ?_, fun e hgen => ?_, rfl⟩
  · obtain ⟨v1, h1⟩ := extract_field_ok gen hgen "merchant_name" ((chunk_text text 512).headD "")
    obtain ⟨v2, h2⟩ := extract_field_ok gen hgen "ein_or_ssn" ((chunk_text text 512).headD "")
    obtain ⟨v3, h3⟩ := extract_field_ok gen hgen "document_type" ((chunk_text text 512).headD "")
    obtain ⟨v4, h4⟩ := extract_field_ok gen hgen "requested_amount" ((chunk_text text 512).headD "")
    obtain ⟨v5, h5⟩ := extract_field_ok gen hgen "address_street" ((chunk_text text 512).headD "")
    obtain ⟨v6, h6⟩ := extract_field_ok gen hgen "address_city" ((chunk_text text 512).headD "")
    obtain ⟨v7, h7⟩ := extract_field_ok gen hgen "address_state" ((chunk_text text 512).headD "")
    obtain ⟨v8, h8⟩ := extract_field_ok gen hgen "address_zip" ((chunk_text text 512).headD "")
    obtain ⟨v9, h9⟩ := extract_field_ok gen hgen "contact_phone" ((chunk_text text 512).headD "")
    obtain ⟨v10, h10⟩ := extract_field_ok gen hgen "contact_email" ((chunk_text text 512).headD "")
    obtain ⟨v11, h11⟩ := extract_field_ok gen hgen "business_type" ((chunk_text text 512).headD "")
    obtain ⟨v12, h12⟩ := extract_field_ok gen hgen "annual_revenue" ((chunk_text text 512).headD "")
    obtain ⟨v13, h13⟩ := extract_field_ok gen hgen "years_in_business" ((chunk_text text 512).headD "")
    obtain ⟨v14, h14⟩ := extract_field_ok gen hgen "processing_volume" ((chunk_text text 512).headD "")
    refine ⟨⟨v1, v2, v3, v4, ⟨v5, v6, v7, v8⟩, ⟨v9, v10⟩, ⟨v11, v12, v13, v14⟩,
      f.getD "unknown", 0.7, []⟩, ?_⟩
    simp only [parse_document, h1, h2, h3, h4, h5, h6, h7, h8, h9, h10, h11, h12, h13, h14,
      except_ok_bind]
    rfl
  · simp [parse_document, extract_field, hgen, except_error_bind]

/-- C3 amended witness: a backend unreachable for every field aborts the
record with that error. -/
theorem extraction_degradation_amended_witness :
    parse_document genDown "doc text" (some "doc.pdf") =
      Except.error "backend unreachable" :=
  (extraction_degradation_amended genDown "doc text" (some "doc.pdf")).2.1
    "backend unreachable" (fun _ => rfl)

/-- C9 counterexample: on `"a:b:c"` the spec-worded post-processing (split
on the FIRST colon, keep the remainder) yields `"b:c"`, but the source
(`text.split(":")[-1]`) yields `"c"` — the two disagree. -/
theorem clean_response_first_colon_counterexample :
    clean_response_spec_first "a:b:c" = "b:c" ∧
    clean_response "a:b:c" = "c" ∧
    clean_response "a:b:c" ≠ clean_response_spec_first "a:b:c" := by
  exact ⟨by decide, by decide, by decide⟩

/-- C9 amended: field post-processing strips label echoes by splitting on
colons and keeping only the LAST segment — everything after the last colon
— then trims and collapses internal whitespace (a string without a colon is
trimmed and collapsed unchanged). -/
theorem clean_response_last_colon_amended (a b s : String) :
    ((':') ∉ b.data → clean_response (a ++ ":" ++ b) = ⟨collapseWs (trimList b.data)⟩) ∧
    ((':') ∉ s.data → clean_response s = ⟨collapseWs (trimList s.data)⟩) := by
  constructor
  · intro hb
    have hdata : (a ++ ":" ++ b).data = a.data ++ ':' :: b.data := by
      show (a.data ++ [':']) ++ b.data = _
      simp
    have hmem : (':') ∈ a.data ++ ':' :: b.data :=
      List.mem_append_right _ (List.mem_cons_self _ _)
    simp only [clean_response, clean_list, hdata, if_pos hmem,
      pySplit_getLastD_append (':') b.data hb a.data]
  · intro hs
    simp only [clean_response, clean_list, if_neg hs]

/-- C9 amended witness: a completion that echoes a label before the colon
keeps only the colon-free remainder, whitespace-normalized. -/
theorem clean_response_last_colon_amended_witness :
    clean_response ("Merchant name" ++ ":" ++ " Acme  Corp ") =
      ⟨collapseWs (trimList (" Acme  Corp " : String).data)⟩ :=
  (clean_response_last_colon_amended "Merchant name" " Acme  Corp " "x").1 (by decide)

/-- C7: chunking splits the raw text on blank-line (`"\n\n"`) separators
and never splits mid-paragraph — flattening the chunk blocks recovers the
paragraph list exactly; every chunk holding two or more paragraphs stays
within the word budget (the budget is advisory: an over-budget paragraph
still yields its own chunk, alone); each chunk string is the
space-join of its paragraph block; and field extraction depends only on
the first chunk — two texts with the same first chunk parse identically on
all 14 fields.  Stated for every budget `m`; the source default is 512,
which `parse_document` uses. -/
theorem chunking_first_chunk_only (s : String) (m : Nat) :
    ((chunkBlocks m [] 0 (splitOnPara s.data)).flatten = splitOnPara s.data) ∧
    (∀ b ∈ chunkBlocks m [] 0 (splitOnPara s.data), 2 ≤ b.length →
      (b.map wordCount).sum ≤ m) ∧
    (∀ p ∈ splitOnPara s.data, m < wordCount p →
      [p] ∈ chunkBlocks m [] 0 (splitOnPara s.data)) ∧
    (chunk_text s m = (chunkBlocks m [] 0 (splitOnPara s.data)).map
      (fun b => ⟨List.intercalate [' '] b⟩)) ∧
    (∀ (gen : String → Except String (List String)) (t₂ : String) (f : Option String),
      (chunk_text s 512).headD "" = (chunk_text t₂ 512).headD "" →
      parse_document gen s f = parse_document gen t₂ f) := by
  refine ⟨by simpa using chunkBlocks_flatten m (splitOnPara s.data) [] 0,
    chunkBlocks_budget m (splitOnPara s.data) [] 0 rfl (by simp),
    fun p hp hw => chunkBlocks_oversized m (splitOnPara s.data) [] 0 p hp hw,
    rfl,
    fun gen t₂ f h => ?_⟩
  simp only [parse_document]
  rw [h]

/-- C7 witness: a two-paragraph chunk within budget 3; a four-word
paragraph over budget 3 standing alone as its own chunk; and first-chunk
dependence instantiated. -/
theorem chunking_first_chunk_only_witness :
    (([['a', ' ', 'b'], ['c']].map wordCount).sum ≤ 3) ∧
    ([['a', ' ', 'b', ' ', 'c', ' ', 'd']] ∈
      chunkBlocks 3 [] 0 (splitOnPara ("a b c d\n\ne f" : String).data)) ∧
    (parse_document genOk "doc text" (some "f.pdf") =
      parse_document genOk "doc text" (some "f.pdf")) :=
  ⟨(chunking_first_chunk_only "a b\n\nc" 3).2.1 _ (by decide) (by decide),
   (chunking_first_chunk_only "a b c d\n\ne f" 3).2.2.1 _ (by decide) (by decide),
   (chunking_first_chunk_only "doc text" 512).2.2.2.2 genOk "doc text" (some "f.pdf") rfl⟩

/-! ### Claim theorems: submission adapter -/

/-- C8 counterexample: `submit_document` on a validation-failed record (no
transport error) returns a dict whose top-level `status` is `"success"` —
a value outside the claimed set `{accepted, rejected, pending_review,
failed}`; the claimed statuses live one level down, in `crm_response`. -/
theorem submission_status_counterexample :
    (submit_document valFailed "t" "42" 0 none).status = "success" ∧
    ("success" ∉ (["accepted", "rejected", "pending_review", "failed"] : List String)) := by
  exact ⟨rfl, by decide⟩

/-- C8 amended: `submit_document` never raises; its top-level `status` is
`"success"` (call completed, CRM response attached) or `"failed"` (an
internal exception was caught and recorded); the inner `crm_response`
status always lies in `{accepted, rejected, pending_review, failed}`;
business rejection of a validation-failed record is reported as the normal
`crm_response.status = "rejected"` outcome, not an error. -/
theorem submission_outcome_amended (d : ValidatedRecord) (now randId : String)
    (r : ℚ) (jsonExc : Option String) :
    ((submit_document d now randId r jsonExc).status ∈
      (["success", "failed"] : List String)) ∧
    ((mock_crm_submit d now randId r).status ∈
      (["accepted", "rejected", "pending_review", "failed"] : List String)) ∧
    (jsonExc = none →
      (submit_document d now randId r jsonExc).crm_response =
        some (mock_crm_submit d now randId r)) ∧
    (d.validation_status = "failed" →
      (mock_crm_submit d now randId r).status = "rejected") ∧
    (∀ e : String, jsonExc = some e →
      submit_document d now randId r jsonExc =
        ⟨"failed", none, none, some e⟩) := by
  refine ⟨?_, ?_, ?_, ?_, ?_⟩
  · cases jsonExc <;> simp [submit_document]
  · by_cases h1 : d.validation_status = "failed" <;>
      by_cases h2 : d.confidence_score < 0.3 <;>
      by_cases h3 : r < 0.9 <;>
      simp [mock_crm_submit, h1, h2, h3]
  · intro h; subst h; rfl
  · intro h; simp [mock_crm_submit, h]
  · intro e h; subst h; rfl

/-- C8 amended witness: the validation-failed record is rejected as a
normal outcome and the wrapper status is in the wrapper set. -/
theorem submission_outcome_amended_witness :
    (mock_crm_submit valFailed "t" "42" 0).status = "rejected" ∧
    ((submit_document valFailed "t" "42" 0 none).status ∈
      (["success", "failed"] : List String)) :=
  ⟨(submission_outcome_amended valFailed "t" "42" 0 none).2.2.2.1 rfl,
   (submission_outcome_amended valFailed "t" "42" 0 none).1⟩

end MerchantPipeline
